import Mathlib

/-!
Verification of the Todo record model (src/models.py).

The source defines a single pydantic model:

  class Todo(BaseModel):
      id: int
      item: str

We shallowly embed the pydantic construction semantics for this model:
an input mapping of JSON-like values is validated field by field, with
the lax coercions pydantic applies (an integer field accepts an integer
or a string holding a decimal integer; a text field accepts a string;
a null never satisfies a non-optional field; keys not declared on the
model are ignored).  Construction either yields a fully typed record or
a ValidationError collecting one error per failing field, and the
record serializes (pydantic dict) back to a two-key mapping.
-/

namespace FastApiTodo

/-- JSON-like values that can appear in an input mapping handed to the
model: integers, strings, and null. -/
inductive PyValue where
  | int (n : Int)
  | str (s : String)
  | none
deriving DecidableEq

/-- An input mapping (a Python dict with string keys): an association
list, earlier bindings shadowing later ones. -/
def PyDict := List (String × PyValue)

instance : DecidableEq PyDict := by
  unfold PyDict
  infer_instance

/-- Key lookup in an input mapping. -/
def PyDict.lookup (d : PyDict) (k : String) : Option PyValue :=
  match d with
  | [] => Option.none
  | (k₀, v₀) :: rest => if k₀ = k then some v₀ else PyDict.lookup rest k

/-- Value of a decimal digit character, when it is one. -/
def digitVal? (c : Char) : Option Nat :=
  if 48 ≤ c.toNat ∧ c.toNat ≤ 57 then some (c.toNat - 48) else Option.none

/-- Accumulating parse of a run of decimal digit characters
(most significant first), as Python int() does over the digit run. -/
def parseNatAux : List Char → Nat → Option Nat
  | [], acc => some acc
  | c :: cs, acc =>
    match digitVal? c with
    | some d => parseNatAux cs (acc * 10 + d)
    | Option.none => Option.none

/-- Parse a nonempty run of decimal digits. -/
def parseNat? : List Char → Option Nat
  | [] => Option.none
  | l => parseNatAux l 0

/-- Parse a character list as Python int() accepts it for the pydantic
integer coercion: an optional sign followed by a nonempty run of
digits. -/
def parseIntChars : List Char → Option Int
  | [] => Option.none
  | c :: cs =>
    if c = '-' then (parseNat? cs).map (fun m => -(m : Int))
    else if c = '+' then (parseNat? cs).map (fun m => (m : Int))
    else (parseNat? (c :: cs)).map (fun m => (m : Int))

/-- Parse a string as a decimal integer, as the pydantic integer
coercion does for string inputs. -/
def parseInt? (s : String) : Option Int :=
  parseIntChars s.data

/-- Pydantic coercion into the declared type int of field id: an
integer passes through, a string is parsed as a decimal integer,
null is rejected. -/
def coerceInt : PyValue → Option Int
  | .int n => some n
  | .str s => parseInt? s
  | .none => Option.none

/-- Pydantic coercion into the declared type str of field item: a
string passes through, anything else is rejected. -/
def coerceStr : PyValue → Option String
  | .str s => some s
  | _ => Option.none

/-- One per-field failure inside a ValidationError: the key was
missing from the input, or its value could not be coerced to the
declared type. -/
inductive FieldError where
  | missing (field : String)
  | typeError (field : String)
deriving DecidableEq

/-- The single error kind of the model: a ValidationError carrying the
list of per-field errors, in field declaration order. -/
structure ValidationError where
  errors : List FieldError
deriving DecidableEq

/-- The validated Todo record: both fields present and typed. -/
structure Todo where
  id : Int
  item : String
deriving DecidableEq

/-- Validate one field: find the key in the input mapping and coerce
its value to the declared type. -/
def validateField {α : Type} (d : PyDict) (name : String)
    (coe : PyValue → Option α) : Except FieldError α :=
  match d.lookup name with
  | Option.none => .error (.missing name)
  | some v =>
    match coe v with
    | Option.none => .error (.typeError name)
    | some a => .ok a

/-- Construction of a Todo from an input mapping, as pydantic runs it:
each declared field is validated in declaration order, errors from all
fields are collected, extra keys are ignored; either a record results
or a ValidationError does. -/
def Todo.construct (d : PyDict) : Except ValidationError Todo :=
  match validateField d "id" coerceInt, validateField d "item" coerceStr with
  | .ok i, .ok s => .ok ⟨i, s⟩
  | .error e₁, .error e₂ => .error ⟨[e₁, e₂]⟩
  | .error e₁, .ok _ => .error ⟨[e₁]⟩
  | .ok _, .error e₂ => .error ⟨[e₂]⟩

/-- Serialization (pydantic dict): the two declared fields, in
declaration order. -/
def Todo.dict (t : Todo) : PyDict :=
  [("id", .int t.id), ("item", .str t.item)]

/-- The operations available on a constructed record: reading a field,
serializing, copy (which builds a fresh record from the receiver and
optional replacement fields), and attribute assignment to one of the
two fields, which the model permits since it declares no frozen or
allow-mutation configuration. -/
inductive TodoOp where
  | getId
  | getItem
  | dict
  | copy (newId : Option Int) (newItem : Option String)
  | setId (n : Int)
  | setItem (s : String)

/-- Whether the operation is a method call on the record, as opposed
to an attribute assignment. -/
def TodoOp.isMethod : TodoOp → Bool
  | .setId _ => false
  | .setItem _ => false
  | _ => true

/-- Result value of a record operation; an assignment returns
nothing. -/
inductive OpResult where
  | intRes (n : Int)
  | strRes (s : String)
  | dictRes (d : PyDict)
  | todoRes (t : Todo)
  | noneRes

/-- Run one operation on a record, returning the state of the receiver
after the call together with the result.  Each pydantic method builds
its result from the receiver's fields without assigning to them, so
its post-state is the receiver itself; an attribute assignment writes
the named field of the receiver in place and returns nothing. -/
def Todo.run (t : Todo) : TodoOp → Todo × OpResult
  | .getId => (t, .intRes t.id)
  | .getItem => (t, .strRes t.item)
  | .dict => (t, .dictRes t.dict)
  | .copy newId newItem =>
    (t, .todoRes ⟨newId.getD t.id, newItem.getD t.item⟩)
  | .setId n => ({ t with id := n }, .noneRes)
  | .setItem s => ({ t with item := s }, .noneRes)

/-- The canonical decimal digit characters of a natural number, most
significant first. -/
def decimalDigits (m : Nat) : List Char :=
  if m = 0 then ['0'] else ((Nat.digits 10 m).map Nat.digitChar).reverse

/-- The string s is the decimal representation of the integer n: its
characters are the canonical decimal digits of n, preceded by a minus
sign when n is negative. -/
def IsDecimalRepr (s : String) (n : Int) : Prop :=
  (0 ≤ n ∧ s.data = decimalDigits n.toNat) ∨
  (n < 0 ∧ s.data = '-' :: decimalDigits n.natAbs)

end FastApiTodo

namespace FastApiTodo

lemma parseNatAux_append (l₁ l₂ : List Char) (acc : Nat) :
    parseNatAux (l₁ ++ l₂) acc
      = (parseNatAux l₁ acc).bind (fun a => parseNatAux l₂ a) := by
  induction l₁ generalizing acc with
  | nil => simp [parseNatAux]
  | cons c cs ih =>
    cases hv : digitVal? c with
    | none => simp [parseNatAux, hv]
    | some d => simp [parseNatAux, hv, ih]

lemma digitVal?_digitChar (d : Nat) (hd : d < 10) :
    digitVal? (Nat.digitChar d) = some d := by
  interval_cases d <;> decide

lemma parseNatAux_digitChars (ds : List Nat) (h : ∀ d ∈ ds, d < 10) (acc : Nat) :
    parseNatAux ((ds.map Nat.digitChar).reverse) acc
      = some (acc * 10 ^ ds.length + Nat.ofDigits 10 ds) := by
  induction ds generalizing acc with
  | nil => simp [parseNatAux, Nat.ofDigits]
  | cons d ds ih =>
    have hd : d < 10 := h d (by simp)
    have hds : ∀ x ∈ ds, x < 10 := fun x hx => h x (by simp [hx])
    rw [List.map_cons, List.reverse_cons, parseNatAux_append, ih hds acc]
    rw [Option.some_bind]
    simp only [parseNatAux, digitVal?_digitChar d hd]
    rw [Nat.ofDigits_cons]
    congr 1
    simp only [List.length_cons]
    ring

lemma decimalDigits_all_digit (m : Nat) :
    ∀ c ∈ decimalDigits m, 48 ≤ c.toNat ∧ c.toNat ≤ 57 := by
  intro c hc
  unfold decimalDigits at hc
  by_cases hm : m = 0
  · rw [if_pos hm] at hc
    simp at hc
    subst hc
    decide
  · rw [if_neg hm] at hc
    rw [List.mem_reverse, List.mem_map] at hc
    obtain ⟨d, hd, rfl⟩ := hc
    have : d < 10 := Nat.digits_lt_base (by norm_num) hd
    interval_cases d <;> decide

lemma decimalDigits_ne_nil (m : Nat) : decimalDigits m ≠ [] := by
  unfold decimalDigits
  by_cases hm : m = 0
  · rw [if_pos hm]; simp
  · rw [if_neg hm]
    simp [Nat.digits_ne_nil_iff_ne_zero.mpr hm]

lemma parseNat?_decimalDigits (m : Nat) :
    parseNat? (decimalDigits m) = some m := by
  by_cases hm : m = 0
  · subst hm; decide
  · have hne : Nat.digits 10 m ≠ [] := Nat.digits_ne_nil_iff_ne_zero.mpr hm
    unfold decimalDigits
    rw [if_neg hm]
    rcases hl : ((Nat.digits 10 m).map Nat.digitChar).reverse with _ | ⟨c, cs⟩
    · exact absurd hl (by simp [hne])
    · rw [show parseNat? (c :: cs) = parseNatAux (c :: cs) 0 from rfl, ← hl]
      rw [parseNatAux_digitChars _ (fun d hd => Nat.digits_lt_base (by norm_num) hd) 0]
      simp [Nat.ofDigits_digits]

lemma parseInt?_isDecimalRepr (s : String) (n : Int) (h : IsDecimalRepr s n) :
    parseInt? s = some n := by
  rw [show parseInt? s = parseIntChars s.data from rfl]
  rcases h with ⟨hn, hs⟩ | ⟨hn, hs⟩
  · rw [hs]
    rcases hl : decimalDigits n.toNat with _ | ⟨c, cs⟩
    · exact absurd hl (decimalDigits_ne_nil _)
    · have hdig := decimalDigits_all_digit n.toNat c (hl ▸ List.mem_cons_self c cs)
      have hcm : ¬ (c = '-') := by
        intro hc; rw [hc] at hdig
        exact absurd hdig.1 (by decide)
      have hcp : ¬ (c = '+') := by
        intro hc; rw [hc] at hdig
        exact absurd hdig.1 (by decide)
      rw [parseIntChars, if_neg hcm, if_neg hcp, ← hl, parseNat?_decimalDigits]
      simp [Int.toNat_of_nonneg hn]
  · rw [hs, parseIntChars, if_pos rfl, parseNat?_decimalDigits]
    simp [show -((n.natAbs : Int)) = n by omega]
    rw [abs_of_neg hn, neg_neg]

end FastApiTodo

namespace FastApiTodo

lemma construct_error_of_id_uncoercible (d : PyDict) (v : PyValue)
    (h1 : d.lookup "id" = some v) (h2 : coerceInt v = Option.none) :
    ∃ e : ValidationError,
      Todo.construct d = .error e ∧ FieldError.typeError "id" ∈ e.errors := by
  have hv : validateField d "id" coerceInt = Except.error (FieldError.typeError "id") := by
    simp [validateField, h1, h2]
  cases h3 : validateField d "item" coerceStr with
  | ok s =>
    exact ⟨⟨[FieldError.typeError "id"]⟩, by simp [Todo.construct, hv, h3], by simp⟩
  | error e =>
    exact ⟨⟨[FieldError.typeError "id", e]⟩, by simp [Todo.construct, hv, h3], by simp⟩

/-- Claim C1: for every integer i and every text value s, constructing
a Todo record from the mapping with id bound to i and item bound to s
succeeds, and the resulting record has id equal to i and item equal
to s. -/
theorem construct_valid_pair (i : Int) (s : String) :
    Todo.construct [("id", PyValue.int i), ("item", PyValue.str s)]
      = Except.ok ⟨i, s⟩ := rfl

/-- Claim C2: for every valid input mapping x holding exactly the keys
id (an integer) and item (a text value) in canonical form, serializing
the record constructed from x yields x back. -/
theorem serialize_construct_roundtrip (i : Int) (s : String) :
    (Todo.construct [("id", PyValue.int i), ("item", PyValue.str s)]).map Todo.dict
      = Except.ok [("id", PyValue.int i), ("item", PyValue.str s)] := rfl

/-- Claim C3: for every input mapping without the key id, construction
of a Todo record fails with a ValidationError reporting the missing id
field, and no record value is produced. -/
theorem construct_missing_id_fails (d : PyDict)
    (h : d.lookup "id" = Option.none) :
    ∃ e : ValidationError,
      Todo.construct d = .error e ∧ FieldError.missing "id" ∈ e.errors := by
  have h1 : validateField d "id" coerceInt = Except.error (FieldError.missing "id") := by
    simp [validateField, h]
  cases h2 : validateField d "item" coerceStr with
  | ok s =>
    exact ⟨⟨[FieldError.missing "id"]⟩, by simp [Todo.construct, h1, h2], by simp⟩
  | error e =>
    exact ⟨⟨[FieldError.missing "id", e]⟩, by simp [Todo.construct, h1, h2], by simp⟩

/-- Witness for claim C3 at the input mapping of the spec example,
holding only the binding of item to the text buy milk. -/
theorem construct_missing_id_fails_witness :
    ∃ e : ValidationError,
      Todo.construct [("item", PyValue.str "buy milk")] = .error e ∧
        FieldError.missing "id" ∈ e.errors :=
  construct_missing_id_fails [("item", PyValue.str "buy milk")] (by rfl)

/-- Claim C4: for every input mapping without the key item,
construction of a Todo record fails with a ValidationError reporting
the missing item field, and no record value is produced. -/
theorem construct_missing_item_fails (d : PyDict)
    (h : d.lookup "item" = Option.none) :
    ∃ e : ValidationError,
      Todo.construct d = .error e ∧ FieldError.missing "item" ∈ e.errors := by
  have h2 : validateField d "item" coerceStr = Except.error (FieldError.missing "item") := by
    simp [validateField, h]
  cases h1 : validateField d "id" coerceInt with
  | ok i =>
    exact ⟨⟨[FieldError.missing "item"]⟩, by simp [Todo.construct, h1, h2], by simp⟩
  | error e =>
    exact ⟨⟨[e, FieldError.missing "item"]⟩, by simp [Todo.construct, h1, h2], by simp⟩

/-- Witness for claim C4 at the input mapping of the spec example,
holding only the binding of id to 1. -/
theorem construct_missing_item_fails_witness :
    ∃ e : ValidationError,
      Todo.construct [("id", PyValue.int 1)] = .error e ∧
        FieldError.missing "item" ∈ e.errors :=
  construct_missing_item_fails [("id", PyValue.int 1)] (by rfl)

/-- Claim C5: for every input mapping whose id value cannot be coerced
to an integer, construction of a Todo record fails with a
ValidationError reporting the ill-typed id field. -/
theorem construct_uncoercible_id_fails (d : PyDict) (v : PyValue)
    (h1 : d.lookup "id" = some v) (h2 : coerceInt v = Option.none) :
    ∃ e : ValidationError,
      Todo.construct d = .error e ∧ FieldError.typeError "id" ∈ e.errors :=
  construct_error_of_id_uncoercible d v h1 h2

/-- Witness for claim C5 at the input mapping of the spec example,
binding id to the text abc and item to the text buy milk. -/
theorem construct_uncoercible_id_fails_witness :
    ∃ e : ValidationError,
      Todo.construct [("id", PyValue.str "abc"), ("item", PyValue.str "buy milk")]
          = .error e ∧
        FieldError.typeError "id" ∈ e.errors :=
  construct_uncoercible_id_fails
    [("id", PyValue.str "abc"), ("item", PyValue.str "buy milk")]
    (PyValue.str "abc") (by rfl) (by rfl)

/-- Claim C6: two Todo records are equal exactly when their id fields
are equal and their item fields are equal; in particular constructing
twice from the same valid mapping gives equal results, and
constructing from mappings with distinct ids gives distinct results. -/
theorem todo_eq_iff_fields_eq :
    (∀ a b : Todo, a = b ↔ a.id = b.id ∧ a.item = b.item) ∧
    Todo.construct [("id", PyValue.int 1), ("item", PyValue.str "a")]
      = Todo.construct [("id", PyValue.int 1), ("item", PyValue.str "a")] ∧
    Todo.construct [("id", PyValue.int 1), ("item", PyValue.str "a")]
      ≠ Todo.construct [("id", PyValue.int 2), ("item", PyValue.str "a")] := by
  refine ⟨fun a b => ?_, rfl, ?_⟩
  · cases a; cases b; simp [Todo.mk.injEq]
  · intro h
    rw [construct_valid_pair, construct_valid_pair] at h
    simp at h

/-- Claim C7, counterexample: the claim as stated is false of the
code.  The model declares no frozen or allow-mutation configuration,
so attribute assignment is an available operation on a constructed
record, and running it on the record with id 1 and item a leaves the
receiver with id 2: the record was mutated in place, no new record
value constructed by the caller. -/
theorem todo_assignment_mutates :
    (Todo.run ⟨1, "a"⟩ (TodoOp.setId 2)).1 = (⟨2, "a"⟩ : Todo) ∧
    (⟨2, "a"⟩ : Todo) ≠ (⟨1, "a"⟩ : Todo) := by
  exact ⟨rfl, by decide⟩

/-- Claim C7, amended: no method on a constructed Todo record (field
read, dict serialization, copy) mutates it: after any such method is
applied, the receiver is the same record with id and item fields
unchanged; attribute assignment, which the non-frozen model also
permits, instead mutates the record in place. -/
theorem todo_methods_no_mutation (t : Todo) (op : TodoOp)
    (h : op.isMethod = true) :
    (t.run op).1 = t ∧ (t.run op).1.id = t.id ∧ (t.run op).1.item = t.item := by
  cases op with
  | setId n => simp [TodoOp.isMethod] at h
  | setItem s => simp [TodoOp.isMethod] at h
  | getId => exact ⟨rfl, rfl, rfl⟩
  | getItem => exact ⟨rfl, rfl, rfl⟩
  | dict => exact ⟨rfl, rfl, rfl⟩
  | copy newId newItem => exact ⟨rfl, rfl, rfl⟩

/-- Witness for the amended claim C7 at a concrete record and the dict
serialization method. -/
theorem todo_methods_no_mutation_witness :
    TodoOp.isMethod TodoOp.dict = true ∧
    ((Todo.run ⟨5, "w"⟩ TodoOp.dict).1 = (⟨5, "w"⟩ : Todo) ∧
      (Todo.run ⟨5, "w"⟩ TodoOp.dict).1.id = 5 ∧
      (Todo.run ⟨5, "w"⟩ TodoOp.dict).1.item = "w") :=
  ⟨rfl, todo_methods_no_mutation ⟨5, "w"⟩ TodoOp.dict rfl⟩

/-- Claim C8: for every string s that is the decimal representation of
an integer n, constructing a Todo record that binds id to the string s
and item to any text t succeeds and yields the integer id n. -/
theorem construct_decimal_string_id (s : String) (n : Int) (t : String)
    (h : IsDecimalRepr s n) :
    Todo.construct [("id", PyValue.str s), ("item", PyValue.str t)]
      = Except.ok ⟨n, t⟩ := by
  have hp : coerceInt (PyValue.str s) = some n := parseInt?_isDecimalRepr s n h
  have l1 : PyDict.lookup [("id", PyValue.str s), ("item", PyValue.str t)] "id"
      = some (PyValue.str s) := rfl
  have l2 : PyDict.lookup [("id", PyValue.str s), ("item", PyValue.str t)] "item"
      = some (PyValue.str t) := rfl
  simp [Todo.construct, validateField, l1, l2, hp, coerceStr]

lemma decimalDigits_seven : decimalDigits 7 = ['7'] := by
  unfold decimalDigits
  rw [if_neg (by norm_num), show Nat.digits 10 7 = [7] by norm_num]
  rfl

/-- Witness for claim C8 at the decimal string 7 and a concrete item
text. -/
theorem construct_decimal_string_id_witness :
    IsDecimalRepr "7" 7 ∧
    Todo.construct [("id", PyValue.str "7"), ("item", PyValue.str "x")]
      = Except.ok ⟨7, "x"⟩ := by
  have h : IsDecimalRepr "7" 7 :=
    Or.inl ⟨by decide, by rw [show ((7 : Int)).toNat = 7 from rfl, decimalDigits_seven]⟩
  exact ⟨h, construct_decimal_string_id "7" 7 "x" h⟩

/-- Claim C9: for every input mapping supplying valid id and item
values together with additional unrecognized keys, construction
succeeds, the extra keys are ignored, and the serialized form of the
resulting record holds exactly the two keys id and item. -/
theorem construct_ignores_extra_keys (d : PyDict) (v w : PyValue) (i : Int) (s : String)
    (h1 : d.lookup "id" = some v) (h2 : coerceInt v = some i)
    (h3 : d.lookup "item" = some w) (h4 : coerceStr w = some s) :
    Todo.construct d = Except.ok ⟨i, s⟩ ∧
    List.map Prod.fst (Todo.dict ⟨i, s⟩) = ["id", "item"] := by
  refine ⟨?_, rfl⟩
  simp [Todo.construct, validateField, h1, h2, h3, h4]

/-- Witness for claim C9 at a mapping with an extra unrecognized key
note besides valid id and item bindings. -/
theorem construct_ignores_extra_keys_witness :
    Todo.construct
        [("id", PyValue.int 3), ("item", PyValue.str "a"), ("note", PyValue.int 0)]
      = Except.ok ⟨3, "a"⟩ ∧
    List.map Prod.fst (Todo.dict ⟨3, "a"⟩) = ["id", "item"] :=
  construct_ignores_extra_keys
    [("id", PyValue.int 3), ("item", PyValue.str "a"), ("note", PyValue.int 0)]
    (PyValue.int 3) (PyValue.str "a") 3 "a" (by rfl) (by rfl) (by rfl) (by rfl)

/-- Claim C10: for every input mapping binding id to null, construction
of a Todo record fails with a ValidationError reporting the ill-typed
id field: the integer field does not admit a null value. -/
theorem construct_null_id_fails (d : PyDict)
    (h : d.lookup "id" = some PyValue.none) :
    ∃ e : ValidationError,
      Todo.construct d = .error e ∧ FieldError.typeError "id" ∈ e.errors :=
  construct_error_of_id_uncoercible d PyValue.none h rfl

/-- Witness for claim C10 at a mapping binding id to null and item to
a concrete text. -/
theorem construct_null_id_fails_witness :
    ∃ e : ValidationError,
      Todo.construct [("id", PyValue.none), ("item", PyValue.str "t")] = .error e ∧
        FieldError.typeError "id" ∈ e.errors :=
  construct_null_id_fails [("id", PyValue.none), ("item", PyValue.str "t")] (by rfl)

end FastApiTodo
